import Mathlib

/-!
Verification development for the MavunoSure claim-adjudication pipeline.

Shallow embedding of the backend services that decide, score and pay out
crop-insurance claims:
  * `app/services/satellite_service.py`  (verdict derivation, cache keys, GEE retry)
  * `app/services/weighted_verification_service.py`  (the decision engine)
  * `app/services/mobile_money_service.py`  (payment send + attempt log)
  * `app/services/payment_service.py`  (payout retry loop, manual retry)

Python floats are modelled as exact rationals (`ℚ`); datetimes are modelled by
a calendar-date record (only the month and the `%Y-%m-%d` rendering are ever
consumed by the embedded code).  Human-readable explanation strings and log
messages are not modelled beyond what the claims consume.
-/

namespace MavunoSure

/-- Calendar date, standing in for Python `datetime` where only the calendar
date matters (cache keys use `strftime('%Y-%m-%d')`, seasonality uses
`.month`). -/
structure Date where
  year : ℕ
  month : ℕ
  day : ℕ
deriving DecidableEq, Repr

/-- `CropCondition` enum from `app/schemas/verification.py`. -/
inductive CropCondition where
  | healthy
  | drought
  | disease_blight
  | disease_rust
  | pest_armyworm
  | other
deriving DecidableEq, Repr

/-- `ClaimStatus` enum from `app/schemas/verification.py`. -/
inductive ClaimStatus where
  | pending
  | auto_approved
  | flagged_for_review
  | rejected
  | paid
deriving DecidableEq, Repr

/-- `SatelliteVerdict` enum from `app/services/satellite_service.py`. -/
inductive SatelliteVerdict where
  | severe_stress
  | moderate_stress
  | normal
deriving DecidableEq, Repr

/-- The string value of a `SatelliteVerdict` member (`str`-valued enum). -/
def SatelliteVerdict.value : SatelliteVerdict → String
  | .severe_stress => "severe_stress"
  | .moderate_stress => "moderate_stress"
  | .normal => "normal"

/-- `SpaceTruth` pydantic model from `app/services/satellite_service.py`. -/
structure SpaceTruth where
  ndmi_value : ℚ
  ndmi_14day_avg : ℚ
  observation_date : Date
  cloud_cover_pct : ℚ
  verdict : SatelliteVerdict
deriving DecidableEq, Repr

/-- `GroundTruth` pydantic model from `app/schemas/verification.py`.
The photo / device metadata fields (`image_url`, tilt, azimuth, GPS,
timestamp) feed only the explanation text and are elided. -/
structure GroundTruth where
  ml_class : CropCondition
  ml_confidence : ℚ
  top_three_classes : List (CropCondition × ℚ)
deriving DecidableEq, Repr

/-- `WeightedVerificationResult` from `app/schemas/verification.py`; the
human-readable `explanation` string is elided. -/
structure WeightedVerificationResult where
  score : ℚ
  status : ClaimStatus
  ground_truth_confidence : ℚ
  space_truth_confidence : ℚ
  rule_applied : String
deriving DecidableEq, Repr

/-! ### Satellite verdict derivation (`SatelliteService._generate_verdict`) -/

/-- `SatelliteService._generate_verdict` (satellite_service.py:448-468). -/
def generate_verdict (ndmi_value : ℚ) : SatelliteVerdict :=
  if ndmi_value < -0.2 then .severe_stress
  else if ndmi_value < -0.1 then .moderate_stress
  else .normal

/-! ### Weighted verification engine (`WeightedVerificationService`) -/

def GROUND_TRUTH_WEIGHT : ℚ := 0.6
def SPACE_TRUTH_WEIGHT : ℚ := 0.4
def AUTO_APPROVE_THRESHOLD : ℚ := 0.8
def FLAG_THRESHOLD : ℚ := 0.5

/-- `WeightedVerificationService._satellite_confidence`
(weighted_verification_service.py:250-265). -/
def satellite_confidence (space_truth : SpaceTruth) : ℚ :=
  if space_truth.verdict = .severe_stress then 0.9
  else if space_truth.verdict = .moderate_stress then 0.6
  else 0.3

/-- `WeightedVerificationService._apply_contextual_rules`
(weighted_verification_service.py:267-406).  Result records carry the same
score / status / confidences / `rule_applied` label as the source; the
explanation text is elided. -/
def apply_contextual_rules (ground_truth : GroundTruth) (space_truth : SpaceTruth) :
    Option WeightedVerificationResult :=
  let gt_class := ground_truth.ml_class
  let gt_conf := ground_truth.ml_confidence
  let ndmi := space_truth.ndmi_value
  let st_verdict := space_truth.verdict
  -- Rule 1: Drought + Low Moisture (< -0.2) → Auto-Approve
  if gt_class = .drought ∧ ndmi < -0.2 then
    some ⟨0.95, .auto_approved, gt_conf, 0.9, "rule_1_drought_low_moisture"⟩
  -- Rule 2: Drought + Normal Moisture → Flag for Review
  else if gt_class = .drought ∧ st_verdict = .normal then
    some ⟨0.65, .flagged_for_review, gt_conf, 0.3, "rule_2_drought_normal_moisture"⟩
  -- Rule 3: Disease → Auto-Approve
  else if gt_class = .disease_blight ∨ gt_class = .disease_rust then
    some ⟨0.85, .auto_approved, gt_conf, 0.5, "rule_3_disease_normal_moisture"⟩
  -- Rule 4: Healthy + Low Moisture → Reject
  else if gt_class = .healthy ∧ ndmi < -0.1 then
    some ⟨0.2, .rejected, gt_conf, 0.9, "rule_4_healthy_low_moisture"⟩
  -- Rule 5: Weed/Other → Reject
  else if gt_class = .other then
    some ⟨0.0, .rejected, gt_conf, 0.0, "rule_5_invalid_subject"⟩
  else
    none

/-- `WeightedVerificationService._apply_seasonality_validation`
(weighted_verification_service.py:408-461). -/
def apply_seasonality_validation (ground_truth : GroundTruth) (space_truth : SpaceTruth)
    (claim_date : Date) : Option WeightedVerificationResult :=
  let claim_month := claim_date.month
  if ground_truth.ml_class = .drought ∧ (claim_month = 1 ∨ claim_month = 2) then
    if space_truth.ndmi_value ≥ -0.1 then
      some ⟨0.45, .rejected, ground_truth.ml_confidence, 0.3,
        "seasonality_dry_harvest_rejection"⟩
    else none
  else none

/-- `WeightedVerificationService.verify` (weighted_verification_service.py:163-248).
`claim_date` is the optional keyword argument; a `datetime` is always truthy
in Python, so `if claim_date:` is `Option.bind`. -/
def verify (ground_truth : GroundTruth) (space_truth : SpaceTruth)
    (claim_date : Option Date := none) : WeightedVerificationResult :=
  match apply_contextual_rules ground_truth space_truth with
  | some contextual_result => contextual_result
  | none =>
    match claim_date.bind (apply_seasonality_validation ground_truth space_truth) with
    | some seasonality_result => seasonality_result
    | none =>
      let gt_confidence := ground_truth.ml_confidence
      let st_confidence := satellite_confidence space_truth
      let score := gt_confidence * GROUND_TRUTH_WEIGHT + st_confidence * SPACE_TRUTH_WEIGHT
      let status : ClaimStatus :=
        if score > AUTO_APPROVE_THRESHOLD then .auto_approved
        else if score ≥ FLAG_THRESHOLD then .flagged_for_review
        else .rejected
      ⟨score, status, gt_confidence, st_confidence, "weighted_score"⟩

/-! ### Evidence cache (`SatelliteService._generate_cache_key` / `_cache_result` /
`_get_cached_result`)

Python `round(x, 4)` is round-half-to-even at 4 decimal places; coordinates are
modelled as exact rationals.  The Redis string key
`f"satellite:\x7blat\x7d:\x7blng\x7d:\x7bdate\x7d"` renders its three components
injectively (none can contain a colon), so it is modelled as the record of the
components. -/

/-- Round a rational to the nearest integer, ties to even (Python `round`). -/
def round_half_even (q : ℚ) : ℤ :=
  if Int.fract q = 1 / 2 then
    if Even ⌊q⌋ then ⌊q⌋ else ⌊q⌋ + 1
  else round q

/-- Python `round(x, 4)`: round to 4 decimal places. -/
def py_round4 (x : ℚ) : ℚ :=
  (round_half_even (x * 10000) : ℚ) / 10000

/-- The components of the cache key string
(`SatelliteService._generate_cache_key`, satellite_service.py:163-181). -/
structure EvidenceCacheKey where
  lat_rounded : ℚ
  lng_rounded : ℚ
  date_str : Date
deriving DecidableEq, Repr

/-- `SatelliteService._generate_cache_key` (satellite_service.py:163-181). -/
def generate_cache_key (lat lng : ℚ) (claim_date : Date) : EvidenceCacheKey :=
  ⟨py_round4 lat, py_round4 lng, claim_date⟩

/-- The JSON form stored in Redis by `_cache_result`: `model_dump()` with the
observation date rendered by `isoformat()` and the verdict by its enum string
value. -/
structure StoredSpaceTruth where
  ndmi_value : ℚ
  ndmi_14day_avg : ℚ
  observation_date : Date
  cloud_cover_pct : ℚ
  verdict : String
deriving DecidableEq, Repr

/-- Serialization performed by `_cache_result` (satellite_service.py:209-232). -/
def serialize_space_truth (result : SpaceTruth) : StoredSpaceTruth :=
  ⟨result.ndmi_value, result.ndmi_14day_avg, result.observation_date,
    result.cloud_cover_pct, result.verdict.value⟩

/-- Pydantic validation of the `verdict` string back into the enum, as done by
`SpaceTruth(**data)` in `_get_cached_result`. -/
def parse_verdict (s : String) : Option SatelliteVerdict :=
  if s = "severe_stress" then some .severe_stress
  else if s = "moderate_stress" then some .moderate_stress
  else if s = "normal" then some .normal
  else none

/-- Deserialization performed by `_get_cached_result`
(satellite_service.py:183-207): `json.loads`, `fromisoformat`, then pydantic
validation. -/
def deserialize_space_truth (data : StoredSpaceTruth) : Option SpaceTruth :=
  (parse_verdict data.verdict).map fun v =>
    ⟨data.ndmi_value, data.ndmi_14day_avg, data.observation_date,
      data.cloud_cover_pct, v⟩

/-- The Redis store, keyed by cache key (TTL expiry not modelled: both claims
about the cache are within one TTL window). -/
def RedisCache : Type := List (EvidenceCacheKey × StoredSpaceTruth)

/-- `redis.get`: first binding for the key wins (a `setex` overwrites by
shadowing). -/
def redis_get (cache : RedisCache) (key : EvidenceCacheKey) : Option StoredSpaceTruth :=
  match cache with
  | [] => none
  | (k, v) :: rest => if key = k then some v else redis_get rest key

/-- `SatelliteService._cache_result` (satellite_service.py:209-232). -/
def cache_result (cache : RedisCache) (cache_key : EvidenceCacheKey)
    (result : SpaceTruth) : RedisCache :=
  (cache_key, serialize_space_truth result) :: cache

/-- `SatelliteService._get_cached_result` (satellite_service.py:183-207). -/
def get_cached_result (cache : RedisCache) (cache_key : EvidenceCacheKey) :
    Option SpaceTruth :=
  (redis_get cache cache_key).bind deserialize_space_truth

/-! ### GEE retry wrapper (`GEEClient.execute_with_retry`,
satellite_service.py:72-109)

One remote call is an effectful function; its behaviour at each attempt index
is a parameter.  `ee.EEException` is the provider's own (transient) exception
type; any other exception — including the plain `Exception` raised by
`get_recent_image` when no suitable imagery exists (satellite_service.py:318-324)
— takes the non-transient branch. -/

/-- Behaviour of one invocation of the wrapped function. -/
inductive GEECallOutcome (α : Type) where
  | ok (value : α)
  | eeError (msg : String)
  | otherError (msg : String)
deriving DecidableEq, Repr

/-- What `execute_with_retry` itself produces: a value or a raised exception. -/
inductive GEEResult (α : Type) where
  | value (a : α)
  | raisedEE (msg : String)
  | raisedOther (msg : String)
deriving DecidableEq, Repr

/-- Trace of one `execute_with_retry` run: result, number of calls made to the
wrapped function, and the backoff sleeps performed (seconds). -/
structure RetryRun (α : Type) where
  outcome : GEEResult α
  calls : ℕ
  delays : List ℕ
deriving DecidableEq, Repr

def GEE_MAX_RETRIES : ℕ := 3
def GEE_RETRY_DELAY : ℕ := 2

/-- The `for attempt in range(self._max_retries)` loop of `execute_with_retry`,
by remaining iterations (`fuel = _max_retries - attempt`). -/
def execute_with_retry_aux {α : Type} (calls : ℕ → GEECallOutcome α)
    (attempt : ℕ) : ℕ → RetryRun α
  | 0 => ⟨.raisedOther "loop not entered", 0, []⟩
  | fuel + 1 =>
    match calls attempt with
    | .ok v => ⟨.value v, 1, []⟩
    | .otherError msg => ⟨.raisedOther msg, 1, []⟩
    | .eeError msg =>
      if fuel = 0 then
        -- last attempt: no sleep, loop ends, `raise last_exception`
        ⟨.raisedEE msg, 1, []⟩
      else
        let delay := GEE_RETRY_DELAY * 2 ^ attempt
        let rest := execute_with_retry_aux calls (attempt + 1) fuel
        ⟨rest.outcome, rest.calls + 1, delay :: rest.delays⟩

/-- `GEEClient.execute_with_retry` (satellite_service.py:72-109). -/
def execute_with_retry {α : Type} (calls : ℕ → GEECallOutcome α) : RetryRun α :=
  execute_with_retry_aux calls 0 GEE_MAX_RETRIES

/-! ### Mobile money (`MobileMoneyService.send_payment`,
mobile_money_service.py:51-136)

The generated transaction id (`uuid4`) is a parameter.  The success message
interpolates the amount; the formatted text is elided and a fixed marker kept.
`_log_transaction` appends one row to `payment_transactions`; the database is
modelled as the append-only list of rows. -/

/-- Python `str.startswith`, on the character lists of the strings. -/
def py_startswith_aux : List Char → List Char → Bool
  | _, [] => true
  | [], _ :: _ => false
  | c :: s, p :: ps => c = p && py_startswith_aux s ps

/-- Python `s.startswith(pre)`. -/
def py_startswith (s pre : String) : Bool :=
  py_startswith_aux s.data pre.data

/-- `PaymentTransaction` result object (mobile_money_service.py:15-31). -/
structure PaymentTransaction where
  success : Bool
  transaction_id : String
  message : String
  amount : ℚ
  phone_number : String
deriving DecidableEq, Repr

/-- One `PaymentTransactionModel` row written by `_log_transaction`
(mobile_money_service.py:160-174). -/
structure PaymentAttemptLogEntry where
  transaction_id : String
  claim_id : String
  phone_number : String
  amount : ℚ
  status : String
  message : String
deriving DecidableEq, Repr

/-- `MobileMoneyService.send_payment` (mobile_money_service.py:51-136).
Returns the transaction result together with the new state of the attempt
log. -/
def send_payment (phone_number : String) (amount : ℚ) (reference : String)
    (is_production api_url_set : Bool) (transaction_id : String)
    (log : List PaymentAttemptLogEntry) :
    PaymentTransaction × List PaymentAttemptLogEntry :=
  -- `if not phone_number or not phone_number.startswith("+254")`
  if phone_number = "" ∨ py_startswith phone_number "+254" = false then
    (⟨false, "", "Invalid phone number format. Must start with +254",
      amount, phone_number⟩, log)
  else if amount ≤ 0 then
    (⟨false, "", "Invalid payment amount. Must be greater than 0",
      amount, phone_number⟩, log)
  else
    let sm : Bool × String :=
      if is_production = true ∧ api_url_set = true then
        (false, "Mobile money API not configured")
      else
        (true, "Payment sent successfully (simulated)")
    let entry : PaymentAttemptLogEntry :=
      ⟨transaction_id, reference, phone_number, amount,
        if sm.1 then "completed" else "failed", sm.2⟩
    (⟨sm.1, transaction_id, sm.2, amount, phone_number⟩, log ++ [entry])

/-! ### Payout processing (`PaymentService`, payment_service.py) -/

/-- The string value of a `ClaimStatus` member (`str`-valued enum), as stored
in the `claims.status` column. -/
def ClaimStatus.value : ClaimStatus → String
  | .pending => "pending"
  | .auto_approved => "auto_approved"
  | .flagged_for_review => "flagged_for_review"
  | .rejected => "rejected"
  | .paid => "paid"

/-- The fields of a `Claim` row touched by `PaymentService`
(`app/models/claim.py`). -/
structure Claim where
  status : String
  payout_status : Option String
  payout_amount : Option ℚ
  payout_reference : Option String
deriving DecidableEq, Repr

def PAYMENT_MAX_RETRIES : ℕ := 3
def PAYMENT_BASE_BACKOFF : ℕ := 2
def DEFAULT_PAYOUT_AMOUNT : ℚ := 5000

/-- Behaviour of one `mobile_money_service.send_payment` call inside the
payout loop: a result object with a success flag, or a raised exception
(both take the same backoff-and-retry path in `process_payout`). -/
inductive PaymentAttemptOutcome where
  | result (success : Bool) (transaction_id : String)
  | raised (msg : String)
deriving DecidableEq, Repr

/-- Trace of one `process_payout` run: return value, final claim record,
number of payment attempts made, backoff sleeps performed (seconds), whether
an SMS notification dispatch was made, and whether it was delivered. -/
structure PayoutRun where
  returned : Bool
  claim : Claim
  attempts : ℕ
  delays : List ℕ
  sms_dispatched : Bool
  sms_delivered : Bool
deriving DecidableEq, Repr

/-- Python truthiness of `claim.payout_amount` (`None` and `0` are falsy). -/
def py_falsy_amount : Option ℚ → Bool
  | none => true
  | some q => decide (q = 0)

/-- The `for attempt in range(self.MAX_RETRIES)` loop of
`PaymentService.process_payout` (payment_service.py:89-162), by remaining
iterations (`fuel = MAX_RETRIES - attempt`).  Reaching `fuel = 0` is falling
off the loop: the claim is flagged for manual processing and `False`
returned. -/
def process_payout_loop (attempt_outcomes : ℕ → PaymentAttemptOutcome)
    (sms_ok : Bool) (claim : Claim) (attempt : ℕ) : ℕ → PayoutRun
  | 0 =>
    ⟨false, {claim with payout_status := some "failed_manual_review_required"},
      0, [], false, false⟩
  | fuel + 1 =>
    match attempt_outcomes attempt with
    | .result true txid =>
      -- success: claim becomes paid; SMS dispatched, its failure swallowed
      ⟨true,
        {claim with
          status := ClaimStatus.paid.value
          payout_status := some "completed"
          payout_reference := some txid},
        1, [], true, sms_ok⟩
    | .result false _ =>
      let ds : List ℕ :=
        if fuel = 0 then [] else [PAYMENT_BASE_BACKOFF ^ (attempt + 1)]
      let rest := process_payout_loop attempt_outcomes sms_ok claim (attempt + 1) fuel
      ⟨rest.returned, rest.claim, rest.attempts + 1, ds ++ rest.delays,
        rest.sms_dispatched, rest.sms_delivered⟩
    | .raised _ =>
      let ds : List ℕ :=
        if fuel = 0 then [] else [PAYMENT_BASE_BACKOFF ^ (attempt + 1)]
      let rest := process_payout_loop attempt_outcomes sms_ok claim (attempt + 1) fuel
      ⟨rest.returned, rest.claim, rest.attempts + 1, ds ++ rest.delays,
        rest.sms_dispatched, rest.sms_delivered⟩

/-- `PaymentService.process_payout` (payment_service.py:36-162).  The database
lookups of claim and farm are environment concerns (a missing row raises
before any attempt); the claim row and the per-attempt provider behaviour are
parameters. -/
def process_payout (claim : Claim) (attempt_outcomes : ℕ → PaymentAttemptOutcome)
    (sms_ok : Bool) : PayoutRun :=
  if claim.status ≠ ClaimStatus.auto_approved.value then
    ⟨false, claim, 0, [], false, false⟩
  else
    -- `if not claim.payout_amount:` set the default amount and mark pending
    process_payout_loop attempt_outcomes sms_ok
      (if py_falsy_amount claim.payout_amount then
        {claim with
          payout_amount := some DEFAULT_PAYOUT_AMOUNT
          payout_status := some "pending"}
      else claim)
      0 PAYMENT_MAX_RETRIES

/-- `PaymentService.retry_failed_payment` (payment_service.py:164-198). -/
def retry_failed_payment (claim : Claim)
    (attempt_outcomes : ℕ → PaymentAttemptOutcome) (sms_ok : Bool) : PayoutRun :=
  if claim.payout_status ≠ some "failed_manual_review_required" then
    ⟨false, claim, 0, [], false, false⟩
  else
    process_payout {claim with payout_status := some "pending"}
      attempt_outcomes sms_ok

/-! ## Theorems -/

/-- C1: Verdict derivation is a total, pure function of the current moisture
index (NDMI) with exactly these thresholds: for every index `v`, `v < -0.2`
yields severe-stress, `-0.2 ≤ v < -0.1` yields moderate-stress, and
`v ≥ -0.1` yields normal; in particular exactly `-0.2` yields
moderate-stress and exactly `-0.1` yields normal (those two boundary
instances are the witness). -/
theorem C1_verdict_thresholds (v : ℚ) :
    (v < -0.2 → generate_verdict v = .severe_stress) ∧
    (-0.2 ≤ v → v < -0.1 → generate_verdict v = .moderate_stress) ∧
    (-0.1 ≤ v → generate_verdict v = .normal) := by
  refine ⟨fun h => ?_, fun h1 h2 => ?_, fun h => ?_⟩ <;> unfold generate_verdict
  · rw [if_pos h]
  · rw [if_neg (not_lt.mpr h1), if_pos h2]
  · rw [if_neg (not_lt.mpr (le_trans (by norm_num) h)), if_neg (not_lt.mpr h)]

/-- C1, boundary instances: `-0.25` is severe-stress, exactly `-0.2` is
moderate-stress, exactly `-0.1` is normal. -/
theorem C1_verdict_thresholds_witness :
    generate_verdict (-0.25) = .severe_stress ∧
    generate_verdict (-0.2) = .moderate_stress ∧
    generate_verdict (-0.1) = .normal :=
  ⟨(C1_verdict_thresholds (-0.25)).1 (by norm_num),
   (C1_verdict_thresholds (-0.2)).2.1 (by norm_num) (by norm_num),
   (C1_verdict_thresholds (-0.1)).2.2 (by norm_num)⟩

/-- C2: for every ground observation with condition drought and satellite
evidence with verdict normal and NDMI ≥ -0.2 (so rule 1 does not fire),
`verify` returns flagged-for-review with score 0.65 and satellite confidence
0.3 via rule 2, for every claim date (also none): rule 2 precedes both the
seasonality check and the weighted path. -/
theorem C2_rule2_priority (ground_truth : GroundTruth) (space_truth : SpaceTruth)
    (claim_date : Option Date)
    (hclass : ground_truth.ml_class = .drought)
    (hverdict : space_truth.verdict = .normal)
    (hndmi : -0.2 ≤ space_truth.ndmi_value) :
    verify ground_truth space_truth claim_date =
      ⟨0.65, .flagged_for_review, ground_truth.ml_confidence, 0.3,
        "rule_2_drought_normal_moisture"⟩ := by
  have h1 : ¬ space_truth.ndmi_value < -0.2 := not_lt.mpr hndmi
  simp [verify, apply_contextual_rules, hclass, hverdict, h1]

/-- C2 witness: a drought observation against a normal verdict with NDMI
`-0.05`, claim date 2025-01-15 (a dry-harvest month, so the seasonality rule
would also match), flags for review with score 0.65 via rule 2. -/
theorem C2_rule2_priority_witness :
    verify ⟨.drought, 0.9, []⟩ ⟨-0.05, 0.1, ⟨2025, 1, 12⟩, 5, .normal⟩
        (some ⟨2025, 1, 15⟩) =
      ⟨0.65, .flagged_for_review, 0.9, 0.3, "rule_2_drought_normal_moisture"⟩ :=
  C2_rule2_priority ⟨.drought, 0.9, []⟩ ⟨-0.05, 0.1, ⟨2025, 1, 12⟩, 5, .normal⟩
    (some ⟨2025, 1, 15⟩) rfl rfl (by norm_num)

/-- Any result produced by the contextual rules carries one of the five
`rule_N` labels. -/
theorem contextual_result_label (ground_truth : GroundTruth) (space_truth : SpaceTruth)
    (r : WeightedVerificationResult)
    (h : apply_contextual_rules ground_truth space_truth = some r) :
    r.rule_applied ∈ ["rule_1_drought_low_moisture", "rule_2_drought_normal_moisture",
      "rule_3_disease_normal_moisture", "rule_4_healthy_low_moisture",
      "rule_5_invalid_subject"] := by
  simp only [apply_contextual_rules] at h
  split_ifs at h <;> simp only [Option.some.injEq, reduceCtorEq] at h
  all_goals first
    | exact absurd h not_false
    | (subst h; simp)

/-- If the satellite verdict is the one derived from the NDMI value and no
contextual rule matched, the seasonality validation cannot match either:
its guard forces verdict = normal, which rule 2 would have caught. -/
theorem seasonality_none_of_contextual_none (ground_truth : GroundTruth)
    (space_truth : SpaceTruth) (d : Date)
    (hinv : space_truth.verdict = generate_verdict space_truth.ndmi_value)
    (hctx : apply_contextual_rules ground_truth space_truth = none) :
    apply_seasonality_validation ground_truth space_truth d = none := by
  simp only [apply_seasonality_validation]
  split_ifs with hA hB
  · exfalso
    have hge1 : (-0.1 : ℚ) ≤ space_truth.ndmi_value := hB
    have hge : ¬ space_truth.ndmi_value < -0.2 :=
      not_lt.mpr (le_trans (by norm_num) hge1)
    have hverd : space_truth.verdict = .normal := by
      rw [hinv]; unfold generate_verdict
      rw [if_neg hge, if_neg (not_lt.mpr hge1)]
    simp [apply_contextual_rules, hA.1, hverd, hge] at hctx
  · rfl
  · rfl

/-- C4: under the invariant that the satellite evidence's verdict equals the
verdict derived from its NDMI value, `verify` never returns a result with
`rule_applied = "seasonality_dry_harvest_rejection"`, for any ground
observation and any (optional) claim date: the seasonality rejection branch
is unreachable because its guard implies verdict = normal, which rule 2
intercepts first. -/
theorem C4_seasonality_unreachable (ground_truth : GroundTruth)
    (space_truth : SpaceTruth) (claim_date : Option Date)
    (hinv : space_truth.verdict = generate_verdict space_truth.ndmi_value) :
    (verify ground_truth space_truth claim_date).rule_applied ≠
      "seasonality_dry_harvest_rejection" := by
  cases hctx : apply_contextual_rules ground_truth space_truth with
  | some r =>
    have hlabel := contextual_result_label ground_truth space_truth r hctx
    have hv : verify ground_truth space_truth claim_date = r := by
      simp [verify, hctx]
    rw [hv]
    intro heq
    rw [heq] at hlabel
    exact absurd hlabel (by decide)
  | none =>
    cases claim_date with
    | none => simp [verify, hctx]
    | some d =>
      simp [verify, hctx,
        seasonality_none_of_contextual_none ground_truth space_truth d hinv hctx]

/-- C4 witness: a drought observation during January with NDMI `-0.05`
(inside the seasonality guard region) and the invariant-derived verdict
(normal) does not produce the seasonality label — rule 2 fires instead. -/
theorem C4_seasonality_unreachable_witness :
    (⟨-0.05, 0.1, ⟨2025, 1, 12⟩, 5, .normal⟩ : SpaceTruth).verdict =
        generate_verdict (-0.05) ∧
    (verify ⟨.drought, 0.9, []⟩ ⟨-0.05, 0.1, ⟨2025, 1, 12⟩, 5, .normal⟩
        (some ⟨2025, 1, 15⟩)).rule_applied ≠ "seasonality_dry_harvest_rejection" :=
  ⟨by norm_num [generate_verdict],
   C4_seasonality_unreachable ⟨.drought, 0.9, []⟩
     ⟨-0.05, 0.1, ⟨2025, 1, 12⟩, 5, .normal⟩ (some ⟨2025, 1, 15⟩)
     (by norm_num [generate_verdict])⟩

/-- The threshold logic of the weighted path, as an iff for each status. -/
theorem weighted_status_spec (s : ℚ) :
    ((if s > AUTO_APPROVE_THRESHOLD then ClaimStatus.auto_approved
        else if s ≥ FLAG_THRESHOLD then ClaimStatus.flagged_for_review
        else ClaimStatus.rejected) = ClaimStatus.auto_approved ↔ 0.8 < s) ∧
    ((if s > AUTO_APPROVE_THRESHOLD then ClaimStatus.auto_approved
        else if s ≥ FLAG_THRESHOLD then ClaimStatus.flagged_for_review
        else ClaimStatus.rejected) = ClaimStatus.flagged_for_review ↔
      0.5 ≤ s ∧ s ≤ 0.8) ∧
    ((if s > AUTO_APPROVE_THRESHOLD then ClaimStatus.auto_approved
        else if s ≥ FLAG_THRESHOLD then ClaimStatus.flagged_for_review
        else ClaimStatus.rejected) = ClaimStatus.rejected ↔ s < 0.5) := by
  unfold AUTO_APPROVE_THRESHOLD FLAG_THRESHOLD
  split_ifs with h1 h2
  · exact ⟨iff_of_true rfl h1,
      iff_of_false (by simp) (by rintro ⟨-, hc⟩; exact absurd h1 (not_lt.mpr hc)),
      iff_of_false (by simp) (not_lt.mpr (by linarith))⟩
  · exact ⟨iff_of_false (by simp) h1,
      iff_of_true rfl ⟨h2, not_lt.mp h1⟩,
      iff_of_false (by simp) (not_lt.mpr h2)⟩
  · exact ⟨iff_of_false (by simp) h1,
      iff_of_false (by simp) (by rintro ⟨hc, -⟩; exact h2 hc),
      iff_of_true rfl (not_le.mp h2)⟩

/-- C3: whenever no contextual rule and no seasonality rule matches, `verify`
takes the weighted path: score = 0.6 × ground confidence + 0.4 × satellite
confidence, with satellite confidence 0.9 / 0.6 / 0.3 for severe-stress /
moderate-stress / normal, and status auto-approved iff score > 0.8,
flagged-for-review iff 0.5 ≤ score ≤ 0.8, rejected iff score < 0.5. -/
theorem C3_weighted_path (ground_truth : GroundTruth) (space_truth : SpaceTruth)
    (claim_date : Option Date)
    (hctx : apply_contextual_rules ground_truth space_truth = none)
    (hseason : ∀ d, claim_date = some d →
      apply_seasonality_validation ground_truth space_truth d = none) :
    (verify ground_truth space_truth claim_date).rule_applied = "weighted_score" ∧
    (verify ground_truth space_truth claim_date).ground_truth_confidence =
      ground_truth.ml_confidence ∧
    (verify ground_truth space_truth claim_date).space_truth_confidence =
      satellite_confidence space_truth ∧
    (space_truth.verdict = .severe_stress → satellite_confidence space_truth = 0.9) ∧
    (space_truth.verdict = .moderate_stress → satellite_confidence space_truth = 0.6) ∧
    (space_truth.verdict = .normal → satellite_confidence space_truth = 0.3) ∧
    (verify ground_truth space_truth claim_date).score =
      0.6 * ground_truth.ml_confidence + 0.4 * satellite_confidence space_truth ∧
    ((verify ground_truth space_truth claim_date).status = .auto_approved ↔
      0.8 < (verify ground_truth space_truth claim_date).score) ∧
    ((verify ground_truth space_truth claim_date).status = .flagged_for_review ↔
      0.5 ≤ (verify ground_truth space_truth claim_date).score ∧
        (verify ground_truth space_truth claim_date).score ≤ 0.8) ∧
    ((verify ground_truth space_truth claim_date).status = .rejected ↔
      (verify ground_truth space_truth claim_date).score < 0.5) := by
  have hbind : claim_date.bind (apply_seasonality_validation ground_truth space_truth)
      = none := by
    cases claim_date with
    | none => rfl
    | some d => simpa using hseason d rfl
  have hv : verify ground_truth space_truth claim_date =
      ⟨ground_truth.ml_confidence * GROUND_TRUTH_WEIGHT +
          satellite_confidence space_truth * SPACE_TRUTH_WEIGHT,
        if ground_truth.ml_confidence * GROUND_TRUTH_WEIGHT +
            satellite_confidence space_truth * SPACE_TRUTH_WEIGHT >
            AUTO_APPROVE_THRESHOLD then .auto_approved
          else if ground_truth.ml_confidence * GROUND_TRUTH_WEIGHT +
              satellite_confidence space_truth * SPACE_TRUTH_WEIGHT ≥
              FLAG_THRESHOLD then .flagged_for_review
          else .rejected,
        ground_truth.ml_confidence, satellite_confidence space_truth,
        "weighted_score"⟩ := by
    simp [verify, hctx, hbind]
  obtain ⟨hs1, hs2, hs3⟩ := weighted_status_spec
    (ground_truth.ml_confidence * GROUND_TRUTH_WEIGHT +
      satellite_confidence space_truth * SPACE_TRUTH_WEIGHT)
  refine ⟨by rw [hv], by rw [hv], by rw [hv], ?_, ?_, ?_, ?_, ?_, ?_, ?_⟩
  · intro h; simp [satellite_confidence, h]
  · intro h; simp [satellite_confidence, h]
  · intro h; simp [satellite_confidence, h]
  · rw [hv]
    show ground_truth.ml_confidence * GROUND_TRUTH_WEIGHT +
        satellite_confidence space_truth * SPACE_TRUTH_WEIGHT =
      0.6 * ground_truth.ml_confidence + 0.4 * satellite_confidence space_truth
    unfold GROUND_TRUTH_WEIGHT SPACE_TRUTH_WEIGHT
    ring
  · rw [hv]; exact hs1
  · rw [hv]; exact hs2
  · rw [hv]; exact hs3

/-- C3 witness: fall-armyworm with confidence 0.87 against a normal verdict
matches no contextual and no seasonality rule, and the weighted path yields
score 0.642 and status flagged-for-review. -/
theorem C3_weighted_path_witness :
    apply_contextual_rules ⟨.pest_armyworm, 0.87, []⟩
        ⟨-0.05, 0.1, ⟨2025, 3, 10⟩, 5, .normal⟩ = none ∧
    (verify ⟨.pest_armyworm, 0.87, []⟩
        ⟨-0.05, 0.1, ⟨2025, 3, 10⟩, 5, .normal⟩ none).score = 0.642 ∧
    (verify ⟨.pest_armyworm, 0.87, []⟩
        ⟨-0.05, 0.1, ⟨2025, 3, 10⟩, 5, .normal⟩ none).status =
      .flagged_for_review := by
  have hctx : apply_contextual_rules ⟨.pest_armyworm, 0.87, []⟩
      ⟨-0.05, 0.1, ⟨2025, 3, 10⟩, 5, .normal⟩ = none := by
    simp [apply_contextual_rules]
  have h := C3_weighted_path ⟨.pest_armyworm, 0.87, []⟩
    ⟨-0.05, 0.1, ⟨2025, 3, 10⟩, 5, .normal⟩ none hctx
    (fun d hd => Option.noConfusion hd)
  obtain ⟨-, -, h3, -, -, h6, h7, -, h9, -⟩ := h
  have hsc : (verify ⟨.pest_armyworm, 0.87, []⟩
      ⟨-0.05, 0.1, ⟨2025, 3, 10⟩, 5, .normal⟩ none).score = 0.642 := by
    rw [h7, h6 rfl]; norm_num
  exact ⟨hctx, hsc, h9.mpr ⟨by rw [hsc]; norm_num, by rw [hsc]; norm_num⟩⟩

/-- C5 counterexample: a `send_payment` call whose phone number fails
validation (`"0712345678"` does not start with `+254`) returns a failure
result and appends nothing to the payment attempt log — the claim that every
invocation appends exactly one entry fails on it. -/
theorem C5_log_counterexample :
    (send_payment "0712345678" 5000 "claim-1" false false "MMTX1" []).1.success
        = false ∧
    (send_payment "0712345678" 5000 "claim-1" false false "MMTX1" []).2.length
        = 0 ∧
    (send_payment "0712345678" 5000 "claim-1" false false "MMTX1" []).2.length
        ≠ 1 := by
  refine ⟨rfl, rfl, ?_⟩
  intro h
  exact absurd h (by decide)

/-- C5 (amended): an invocation of `send_payment` that passes input
validation (non-empty phone starting with `+254`, amount > 0) appends exactly
one entry to the payment attempt log, whether the transfer succeeds or fails;
an invocation that fails input validation appends nothing and returns a
failure result. -/
theorem C5_log_amended (phone_number : String) (amount : ℚ) (reference : String)
    (is_production api_url_set : Bool) (transaction_id : String)
    (log : List PaymentAttemptLogEntry) :
    (¬ (phone_number = "" ∨ py_startswith phone_number "+254" = false) →
      0 < amount →
      (send_payment phone_number amount reference is_production api_url_set
        transaction_id log).2.length = log.length + 1) ∧
    ((phone_number = "" ∨ py_startswith phone_number "+254" = false ∨ amount ≤ 0) →
      (send_payment phone_number amount reference is_production api_url_set
        transaction_id log).2 = log ∧
      (send_payment phone_number amount reference is_production api_url_set
        transaction_id log).1.success = false) := by
  constructor
  · intro hval hpos
    unfold send_payment
    rw [if_neg hval, if_neg (not_le.mpr hpos)]
    simp
  · intro h
    unfold send_payment
    rcases h with h | h | h
    · rw [if_pos (Or.inl h)]; exact ⟨rfl, rfl⟩
    · rw [if_pos (Or.inr h)]; exact ⟨rfl, rfl⟩
    · by_cases hv : phone_number = "" ∨ py_startswith phone_number "+254" = false
      · rw [if_pos hv]; exact ⟨rfl, rfl⟩
      · rw [if_neg hv, if_pos h]; exact ⟨rfl, rfl⟩

/-- C5 witness: a valid call (`+254712345678`, amount 5000) appends exactly
one entry to an empty log. -/
theorem C5_log_amended_witness :
    ¬ ("+254712345678" = "" ∨ py_startswith "+254712345678" "+254" = false) ∧
    (send_payment "+254712345678" 5000 "claim-1" false false "MMTX1" []).2.length
      = 1 :=
  ⟨by decide,
   (C5_log_amended "+254712345678" 5000 "claim-1" false false "MMTX1" []).1
     (by decide) (by norm_num)⟩

/-- Trace shape of the three-attempt payout loop: at most 3 attempts are
made, and the sleeps performed are the first `attempts - 1` elements of
`[2, 4]` — in particular no 8-second sleep ever happens (no sleep follows the
final attempt). -/
theorem payout_loop3_trace (attempt_outcomes : ℕ → PaymentAttemptOutcome)
    (sms_ok : Bool) (c : Claim) :
    (process_payout_loop attempt_outcomes sms_ok c 0 3).attempts ≤ 3 ∧
    (process_payout_loop attempt_outcomes sms_ok c 0 3).delays =
      List.take ((process_payout_loop attempt_outcomes sms_ok c 0 3).attempts - 1)
        [2, 4] := by
  cases h0 : attempt_outcomes 0 with
  | result s0 t0 =>
    cases s0 with
    | true => simp [process_payout_loop, PAYMENT_BASE_BACKOFF, h0]
    | false =>
      cases h1 : attempt_outcomes 1 with
      | result s1 t1 =>
        cases s1 with
        | true => simp [process_payout_loop, PAYMENT_BASE_BACKOFF, h0, h1]
        | false =>
          cases h2 : attempt_outcomes 2 with
          | result s2 t2 => cases s2 <;> simp [process_payout_loop, PAYMENT_BASE_BACKOFF, h0, h1, h2]
          | raised m2 => simp [process_payout_loop, PAYMENT_BASE_BACKOFF, h0, h1, h2]
      | raised m1 =>
        cases h2 : attempt_outcomes 2 with
        | result s2 t2 => cases s2 <;> simp [process_payout_loop, PAYMENT_BASE_BACKOFF, h0, h1, h2]
        | raised m2 => simp [process_payout_loop, PAYMENT_BASE_BACKOFF, h0, h1, h2]
  | raised m0 =>
    cases h1 : attempt_outcomes 1 with
    | result s1 t1 =>
      cases s1 with
      | true => simp [process_payout_loop, PAYMENT_BASE_BACKOFF, h0, h1]
      | false =>
        cases h2 : attempt_outcomes 2 with
        | result s2 t2 => cases s2 <;> simp [process_payout_loop, PAYMENT_BASE_BACKOFF, h0, h1, h2]
        | raised m2 => simp [process_payout_loop, PAYMENT_BASE_BACKOFF, h0, h1, h2]
    | raised m1 =>
      cases h2 : attempt_outcomes 2 with
      | result s2 t2 => cases s2 <;> simp [process_payout_loop, PAYMENT_BASE_BACKOFF, h0, h1, h2]
      | raised m2 => simp [process_payout_loop, PAYMENT_BASE_BACKOFF, h0, h1, h2]

/-- C6 counterexample: in a payout cycle where every attempt fails, exactly 3
attempts are made but the backoff sleeps performed are 2s and 4s only — the
8-second delay of the claim never occurs (`2 ** (attempt+1)` would give 8
only after the third and last attempt, where no sleep is executed). -/
theorem C6_backoff_counterexample :
    (process_payout ⟨"auto_approved", some "pending", some 5000, none⟩
      (fun _ => .result false "") true).attempts = 3 ∧
    (process_payout ⟨"auto_approved", some "pending", some 5000, none⟩
      (fun _ => .result false "") true).delays = [2, 4] ∧
    (process_payout ⟨"auto_approved", some "pending", some 5000, none⟩
      (fun _ => .result false "") true).delays ≠ [2, 4, 8] ∧
    8 ∉ (process_payout ⟨"auto_approved", some "pending", some 5000, none⟩
      (fun _ => .result false "") true).delays := by
  refine ⟨?_, ?_, ?_, ?_⟩ <;>
    simp [process_payout, process_payout_loop, py_falsy_amount,
      PAYMENT_MAX_RETRIES, PAYMENT_BASE_BACKOFF, ClaimStatus.value]

/-- C6 (amended): the payout stage makes at most 3 payment attempts per
cycle, with exponential backoff sleeps of 2 seconds and then 4 seconds
between consecutive attempts; no sleep follows the final attempt, so an
8-second delay never occurs. -/
theorem C6_payout_retry_amended (claim : Claim)
    (attempt_outcomes : ℕ → PaymentAttemptOutcome) (sms_ok : Bool) :
    (process_payout claim attempt_outcomes sms_ok).attempts ≤ 3 ∧
    (process_payout claim attempt_outcomes sms_ok).delays =
      List.take ((process_payout claim attempt_outcomes sms_ok).attempts - 1)
        [2, 4] := by
  unfold process_payout
  split_ifs with h h2
  · exact ⟨by norm_num, rfl⟩
  · exact payout_loop3_trace attempt_outcomes sms_ok _
  · exact payout_loop3_trace attempt_outcomes sms_ok _

/-- If the payout loop exhausts all three attempts (no attempt returns a
successful result), it flags the claim for manual processing, returns false,
performs exactly 3 attempts with sleeps 2s and 4s, and dispatches no SMS. -/
theorem payout_loop3_all_fail (attempt_outcomes : ℕ → PaymentAttemptOutcome)
    (sms_ok : Bool) (c : Claim)
    (hfail : ∀ i, i < 3 → ∀ t, attempt_outcomes i ≠ .result true t) :
    process_payout_loop attempt_outcomes sms_ok c 0 3 =
      ⟨false, {c with payout_status := some "failed_manual_review_required"},
        3, [2, 4], false, false⟩ := by
  cases h0 : attempt_outcomes 0 with
  | result s0 t0 =>
    cases s0 with
    | true => exact absurd h0 (hfail 0 (by norm_num) t0)
    | false =>
      cases h1 : attempt_outcomes 1 with
      | result s1 t1 =>
        cases s1 with
        | true => exact absurd h1 (hfail 1 (by norm_num) t1)
        | false =>
          cases h2 : attempt_outcomes 2 with
          | result s2 t2 =>
            cases s2 with
            | true => exact absurd h2 (hfail 2 (by norm_num) t2)
            | false =>
              simp [process_payout_loop, PAYMENT_BASE_BACKOFF, h0, h1, h2]
          | raised m2 => simp [process_payout_loop, PAYMENT_BASE_BACKOFF, h0, h1, h2]
      | raised m1 =>
        cases h2 : attempt_outcomes 2 with
        | result s2 t2 =>
          cases s2 with
          | true => exact absurd h2 (hfail 2 (by norm_num) t2)
          | false => simp [process_payout_loop, PAYMENT_BASE_BACKOFF, h0, h1, h2]
        | raised m2 => simp [process_payout_loop, PAYMENT_BASE_BACKOFF, h0, h1, h2]
  | raised m0 =>
    cases h1 : attempt_outcomes 1 with
    | result s1 t1 =>
      cases s1 with
      | true => exact absurd h1 (hfail 1 (by norm_num) t1)
      | false =>
        cases h2 : attempt_outcomes 2 with
        | result s2 t2 =>
          cases s2 with
          | true => exact absurd h2 (hfail 2 (by norm_num) t2)
          | false => simp [process_payout_loop, PAYMENT_BASE_BACKOFF, h0, h1, h2]
        | raised m2 => simp [process_payout_loop, PAYMENT_BASE_BACKOFF, h0, h1, h2]
    | raised m1 =>
      cases h2 : attempt_outcomes 2 with
      | result s2 t2 =>
        cases s2 with
        | true => exact absurd h2 (hfail 2 (by norm_num) t2)
        | false => simp [process_payout_loop, PAYMENT_BASE_BACKOFF, h0, h1, h2]
      | raised m2 => simp [process_payout_loop, PAYMENT_BASE_BACKOFF, h0, h1, h2]

/-- If a run of the payout loop dispatched an SMS notification, then some
attempt succeeded: the run returned true and the claim became paid. -/
theorem payout_loop_dispatch_success (attempt_outcomes : ℕ → PaymentAttemptOutcome)
    (sms_ok : Bool) (c : Claim) (attempt fuel : ℕ)
    (h : (process_payout_loop attempt_outcomes sms_ok c attempt fuel).sms_dispatched
      = true) :
    (process_payout_loop attempt_outcomes sms_ok c attempt fuel).returned = true ∧
    (process_payout_loop attempt_outcomes sms_ok c attempt fuel).claim.status
      = "paid" := by
  induction fuel generalizing attempt with
  | zero => simp [process_payout_loop] at h
  | succ fuel ih =>
    cases ho : attempt_outcomes attempt with
    | result s t =>
      cases s with
      | true => simp [process_payout_loop, ho, ClaimStatus.value]
      | false =>
        simp only [process_payout_loop, ho] at h ⊢
        exact ih (attempt + 1) h
    | raised m =>
      simp only [process_payout_loop, ho] at h ⊢
      exact ih (attempt + 1) h

/-- The SMS outcome influences neither the return value nor the final claim
record of the payout loop (its failure is swallowed). -/
theorem payout_loop_sms_irrelevant (attempt_outcomes : ℕ → PaymentAttemptOutcome)
    (c : Claim) (attempt fuel : ℕ) :
    (process_payout_loop attempt_outcomes false c attempt fuel).returned =
      (process_payout_loop attempt_outcomes true c attempt fuel).returned ∧
    (process_payout_loop attempt_outcomes false c attempt fuel).claim =
      (process_payout_loop attempt_outcomes true c attempt fuel).claim := by
  induction fuel generalizing attempt with
  | zero => exact ⟨rfl, rfl⟩
  | succ fuel ih =>
    cases ho : attempt_outcomes attempt with
    | result s t =>
      cases s with
      | true => simp [process_payout_loop, ho]
      | false =>
        simp only [process_payout_loop, ho]
        exact ih (attempt + 1)
    | raised m =>
      simp only [process_payout_loop, ho]
      exact ih (attempt + 1)

/-- C7: if every attempt of the payout cycle for an auto-approved claim
fails, `process_payout` sets the payout status to
failed-needs-manual-review, returns false, makes exactly 3 attempts, and
dispatches no notification; conversely a notification is dispatched only
when an attempt succeeded (the run returns true and the claim is paid); and
the notification outcome never alters the return value or the final claim
(an SMS failure after a successful payment leaves the claim paid and the
result true). -/
theorem C7_exhaustion_and_notification (claim : Claim)
    (attempt_outcomes : ℕ → PaymentAttemptOutcome) (sms_ok : Bool) :
    (claim.status = "auto_approved" →
      (∀ i, i < 3 → ∀ t, attempt_outcomes i ≠ .result true t) →
      (process_payout claim attempt_outcomes sms_ok).returned = false ∧
      (process_payout claim attempt_outcomes sms_ok).claim.payout_status =
        some "failed_manual_review_required" ∧
      (process_payout claim attempt_outcomes sms_ok).attempts = 3 ∧
      (process_payout claim attempt_outcomes sms_ok).sms_dispatched = false) ∧
    ((process_payout claim attempt_outcomes sms_ok).sms_dispatched = true →
      (process_payout claim attempt_outcomes sms_ok).returned = true ∧
      (process_payout claim attempt_outcomes sms_ok).claim.status = "paid") ∧
    ((process_payout claim attempt_outcomes false).returned =
       (process_payout claim attempt_outcomes true).returned ∧
     (process_payout claim attempt_outcomes false).claim =
       (process_payout claim attempt_outcomes true).claim) := by
  refine ⟨?_, ?_, ?_⟩
  · intro hst hfail
    have hstat : ¬ claim.status ≠ ClaimStatus.auto_approved.value := by
      simp [ClaimStatus.value, hst]
    unfold process_payout
    rw [if_neg hstat]
    simp only [PAYMENT_MAX_RETRIES]
    rw [payout_loop3_all_fail attempt_outcomes sms_ok _ hfail]
    exact ⟨rfl, rfl, rfl, rfl⟩
  · intro hd
    unfold process_payout at hd ⊢
    by_cases hstat : claim.status ≠ ClaimStatus.auto_approved.value
    · rw [if_pos hstat] at hd
      simp at hd
    · rw [if_neg hstat] at hd ⊢
      exact payout_loop_dispatch_success attempt_outcomes sms_ok _ 0
        PAYMENT_MAX_RETRIES hd
  · unfold process_payout
    split_ifs with h h2
    · exact ⟨rfl, rfl⟩
    · exact payout_loop_sms_irrelevant attempt_outcomes _ 0 PAYMENT_MAX_RETRIES
    · exact payout_loop_sms_irrelevant attempt_outcomes _ 0 PAYMENT_MAX_RETRIES

/-- C7 witness: a concrete auto-approved claim whose three attempts all fail
ends flagged for manual review with no notification, and the success path
with a failing SMS still returns true with the claim paid. -/
theorem C7_exhaustion_and_notification_witness :
    (process_payout ⟨"auto_approved", some "pending", some 5000, none⟩
        (fun _ => .result false "") true).returned = false ∧
    (process_payout ⟨"auto_approved", some "pending", some 5000, none⟩
        (fun _ => .result false "") true).claim.payout_status =
      some "failed_manual_review_required" ∧
    (process_payout ⟨"auto_approved", some "pending", some 5000, none⟩
        (fun _ => .result false "") true).sms_dispatched = false ∧
    (process_payout ⟨"auto_approved", some "pending", some 5000, none⟩
        (fun _ => .result true "MMTX9") false).returned = true ∧
    (process_payout ⟨"auto_approved", some "pending", some 5000, none⟩
        (fun _ => .result true "MMTX9") false).claim.status = "paid" := by
  have h := C7_exhaustion_and_notification
    ⟨"auto_approved", some "pending", some 5000, none⟩
    (fun _ => .result false "") true
  obtain ⟨hfailpart, -, -⟩ := h
  obtain ⟨h1, h2, -, h4⟩ := hfailpart rfl (by intro i hi t hcontra; cases hcontra)
  have hs := C7_exhaustion_and_notification
    ⟨"auto_approved", some "pending", some 5000, none⟩
    (fun _ => .result true "MMTX9") false
  obtain ⟨-, hdisp, -⟩ := hs
  obtain ⟨h5, h6⟩ := hdisp (by
    simp [process_payout, process_payout_loop, py_falsy_amount,
      PAYMENT_MAX_RETRIES, ClaimStatus.value])
  exact ⟨h1, h2, h4, h5, h6⟩

/-- C8: `retry_failed_payment` on a claim whose payout status is
failed-needs-manual-review first overwrites that status with "pending" and
re-runs the payout stage; if the claim's lifecycle status is not
auto-approved, the retry returns false and the payout status remains
"pending" — so a further manual retry is a no-op returning false (the claim
is no longer eligible).  On any other initial payout status the operation is
a no-op returning false with the claim unchanged. -/
theorem C8_manual_retry (claim : Claim)
    (attempt_outcomes : ℕ → PaymentAttemptOutcome) (sms_ok : Bool) :
    (claim.payout_status = some "failed_manual_review_required" →
      claim.status ≠ "auto_approved" →
      (retry_failed_payment claim attempt_outcomes sms_ok).returned = false ∧
      (retry_failed_payment claim attempt_outcomes sms_ok).claim =
        {claim with payout_status := some "pending"} ∧
      retry_failed_payment (retry_failed_payment claim attempt_outcomes sms_ok).claim
          attempt_outcomes sms_ok =
        ⟨false, (retry_failed_payment claim attempt_outcomes sms_ok).claim,
          0, [], false, false⟩) ∧
    (claim.payout_status ≠ some "failed_manual_review_required" →
      retry_failed_payment claim attempt_outcomes sms_ok =
        ⟨false, claim, 0, [], false, false⟩) := by
  constructor
  · intro hps hstat
    have hcond : ¬ claim.payout_status ≠ some "failed_manual_review_required" := by
      simp [hps]
    have hstat2 : ({claim with payout_status := some "pending"} : Claim).status ≠
        ClaimStatus.auto_approved.value := by
      simpa [ClaimStatus.value] using hstat
    unfold retry_failed_payment
    rw [if_neg hcond]
    unfold process_payout
    rw [if_pos hstat2]
    refine ⟨rfl, rfl, ?_⟩
    rw [if_pos (by simp)]
  · intro h
    unfold retry_failed_payment
    rw [if_pos h]

/-- C8 witness: a flagged-for-review claim (not auto-approved) in
failed-needs-manual-review payout state: the manual retry returns false,
leaves the payout status "pending", and a second manual retry is a no-op. -/
theorem C8_manual_retry_witness :
    (retry_failed_payment
        ⟨"flagged_for_review", some "failed_manual_review_required", some 5000, none⟩
        (fun _ => .result true "MMTX2") true).returned = false ∧
    (retry_failed_payment
        ⟨"flagged_for_review", some "failed_manual_review_required", some 5000, none⟩
        (fun _ => .result true "MMTX2") true).claim.payout_status = some "pending" ∧
    retry_failed_payment
        (retry_failed_payment
          ⟨"flagged_for_review", some "failed_manual_review_required", some 5000, none⟩
          (fun _ => .result true "MMTX2") true).claim
        (fun _ => .result true "MMTX2") true =
      ⟨false,
        (retry_failed_payment
          ⟨"flagged_for_review", some "failed_manual_review_required", some 5000, none⟩
          (fun _ => .result true "MMTX2") true).claim, 0, [], false, false⟩ := by
  obtain ⟨ha, hb, hc⟩ :=
    (C8_manual_retry
      ⟨"flagged_for_review", some "failed_manual_review_required", some 5000, none⟩
      (fun _ => .result true "MMTX2") true).1 rfl (by decide)
  exact ⟨ha, by rw [hb], hc⟩

/-- C9: `execute_with_retry` makes at most 3 calls; a non-transient error
(any exception that is not the provider's `EEException`, including the
no-suitable-imagery `Exception`) on the first attempt propagates immediately
with no retry and no sleep; three transient provider errors exhaust the
retries with backoff sleeps 2s then 4s (the base delay 2 doubling each
attempt) and re-raise the last provider error. -/
theorem C9_gee_retry {α : Type} (calls : ℕ → GEECallOutcome α) :
    (execute_with_retry calls).calls ≤ 3 ∧
    (∀ msg, calls 0 = .otherError msg →
      execute_with_retry calls = ⟨.raisedOther msg, 1, []⟩) ∧
    (∀ m0 m1 m2, calls 0 = .eeError m0 → calls 1 = .eeError m1 →
      calls 2 = .eeError m2 →
      execute_with_retry calls = ⟨.raisedEE m2, 3, [2, 4]⟩) := by
  refine ⟨?_, ?_, ?_⟩
  · unfold execute_with_retry GEE_MAX_RETRIES
    cases h0 : calls 0 with
    | ok v => simp [execute_with_retry_aux, h0]
    | otherError m => simp [execute_with_retry_aux, h0]
    | eeError m =>
      cases h1 : calls 1 with
      | ok v => simp [execute_with_retry_aux, h0, h1]
      | otherError m1 => simp [execute_with_retry_aux, h0, h1]
      | eeError m1 =>
        cases h2 : calls 2 with
        | ok v => simp [execute_with_retry_aux, h0, h1, h2]
        | otherError m2 => simp [execute_with_retry_aux, h0, h1, h2]
        | eeError m2 => simp [execute_with_retry_aux, h0, h1, h2]
  · intro msg h0
    unfold execute_with_retry GEE_MAX_RETRIES
    simp [execute_with_retry_aux, h0]
  · intro m0 m1 m2 h0 h1 h2
    unfold execute_with_retry GEE_MAX_RETRIES
    simp [execute_with_retry_aux, GEE_RETRY_DELAY, h0, h1, h2]

/-- C9 witness: three transient timeouts give 3 calls with sleeps [2, 4] and
re-raise the last timeout; a first-call non-transient no-suitable-imagery
error propagates with a single call and no sleep. -/
theorem C9_gee_retry_witness :
    execute_with_retry (fun _ => GEECallOutcome.eeError (α := Unit) "timeout") =
      ⟨.raisedEE "timeout", 3, [2, 4]⟩ ∧
    execute_with_retry
        (fun _ => GEECallOutcome.otherError (α := Unit) "no suitable imagery") =
      ⟨.raisedOther "no suitable imagery", 1, []⟩ :=
  ⟨(C9_gee_retry (fun _ => GEECallOutcome.eeError (α := Unit) "timeout")).2.2
      "timeout" "timeout" "timeout" rfl rfl rfl,
   (C9_gee_retry
      (fun _ => GEECallOutcome.otherError (α := Unit) "no suitable imagery")).2.1
      "no suitable imagery" rfl⟩

/-- C10 counterexample: latitudes 0.1234 and 0.12349 agree in their first
four decimal digits (they differ only from the 5th decimal on — both have
`⌊lat·10⁴⌋ = 1234`), yet `round(·, 4)` sends them to 0.1234 and 0.1235
respectively, so the two cache keys differ and the records do not share one
cache entry, contrary to the claim. -/
theorem C10_fingerprint_counterexample :
    (⌊(0.1234 : ℚ) * 10000⌋ = 1234 ∧ ⌊(0.12349 : ℚ) * 10000⌋ = 1234) ∧
    py_round4 0.1234 = 0.1234 ∧
    py_round4 0.12349 = 0.1235 ∧
    generate_cache_key 0.1234 36.8 ⟨2026, 1, 5⟩ ≠
      generate_cache_key 0.12349 36.8 ⟨2026, 1, 5⟩ := by
  have h1 : py_round4 0.1234 = 0.1234 := by
    unfold py_round4 round_half_even
    norm_num [Int.fract, round_eq]
  have h2 : py_round4 0.12349 = 0.1235 := by
    unfold py_round4 round_half_even
    norm_num [Int.fract, round_eq]
  refine ⟨⟨by norm_num, by norm_num⟩, h1, h2, ?_⟩
  simp only [generate_cache_key, h1, h2, ne_eq, EvidenceCacheKey.mk.injEq,
    not_and]
  intro hlat
  exact absurd hlat (by norm_num)

/-- C10 (amended): storing a satellite evidence record and retrieving it
under the same fingerprint returns an equivalent record; and two coordinate
pairs whose latitudes and longitudes round to the same 4-decimal values
(Python `round`) produce the identical fingerprint and therefore share one
cache entry.  (Agreement of the first four decimal digits alone does not
guarantee the collision — see the counterexample.) -/
theorem C10_cache_roundtrip (cache : RedisCache) (cache_key : EvidenceCacheKey)
    (result : SpaceTruth) (lat₁ lng₁ lat₂ lng₂ : ℚ) (claim_date : Date) :
    get_cached_result (cache_result cache cache_key result) cache_key
      = some result ∧
    (py_round4 lat₁ = py_round4 lat₂ → py_round4 lng₁ = py_round4 lng₂ →
      generate_cache_key lat₁ lng₁ claim_date =
        generate_cache_key lat₂ lng₂ claim_date) := by
  constructor
  · simp only [get_cached_result, cache_result, redis_get, if_pos rfl]
    cases hres : result.verdict <;>
      simp [serialize_space_truth, deserialize_space_truth, parse_verdict,
        SatelliteVerdict.value, hres] <;>
      rw [← hres]
  · intro h1 h2
    simp [generate_cache_key, h1, h2]

/-- C10 witness: storing then retrieving a concrete record returns it, and
0.12341 / 0.12342 (same 4-decimal rounding) give identical cache keys. -/
theorem C10_cache_roundtrip_witness :
    get_cached_result
        (cache_result [] (generate_cache_key 0.12341 36.8 ⟨2026, 1, 5⟩)
          ⟨-0.15, -0.02, ⟨2026, 1, 4⟩, 12, .moderate_stress⟩)
        (generate_cache_key 0.12341 36.8 ⟨2026, 1, 5⟩)
      = some ⟨-0.15, -0.02, ⟨2026, 1, 4⟩, 12, .moderate_stress⟩ ∧
    py_round4 0.12341 = py_round4 0.12342 ∧
    generate_cache_key 0.12341 36.8 ⟨2026, 1, 5⟩ =
      generate_cache_key 0.12342 36.8 ⟨2026, 1, 5⟩ := by
  have hr : py_round4 0.12341 = py_round4 0.12342 := by
    unfold py_round4 round_half_even
    norm_num [Int.fract, round_eq]
  have h := C10_cache_roundtrip []
    (generate_cache_key 0.12341 36.8 ⟨2026, 1, 5⟩)
    ⟨-0.15, -0.02, ⟨2026, 1, 4⟩, 12, .moderate_stress⟩
    0.12341 36.8 0.12342 36.8 ⟨2026, 1, 5⟩
  exact ⟨h.1, hr, h.2 hr rfl⟩

end MavunoSure
